import Mathlib

/-!
Shallow embedding of the two controllers of this repository:
the teleoperation fusion controller (real_controller.cpp) and the
torque controller (my_controller.cpp).  Real-valued program data
(C++ doubles) is modelled by exact rationals; vectors indexed by a
fixed joint count are functions out of Fin; the fallible C++
std vector at-accessor is modelled by Except, the error value
carrying the state of the vector when the exception is raised.
-/

/-! Section: Constants of real_controller.cpp -/

/-- Number of joints of the arm (global constant n_joints = 7). -/
def n_joints : ℕ := 7

/-- Lower joint limits (global constant lower_joint_limits). -/
def lower_joint_limits : Fin n_joints → ℚ :=
  ![-2.8973, -1.7628, -2.8973, -3.0718, -2.8973, -0.0175, -2.8973]

/-- Upper joint limits (global constant upper_joint_limits). -/
def upper_joint_limits : Fin n_joints → ℚ :=
  ![2.8973, 1.7628, 2.8973, -0.0698, 2.8973, 3.7525, 2.8973]

/-- Rate at which controller_publisher runs, in Hz (member control_freq). -/
def control_freq : ℕ := 20

/-- Artificial latency constant (member latency = 2.0). -/
def latency : ℚ := 2

/-- Smoothing ceiling: max_count = control_freq * 10 = 200 ticks. -/
def max_count : ℕ := control_freq * 10

/-- Falcon-to-end-effector mapping ratio (member mapping_ratio = 1.5). -/
def mapping_ratio : ℚ := 1.5

/-- Per-axis human share ax (member ax = 1.0). -/
def ax : ℚ := 1

/-- Per-axis human share ay (member ay = 1.0). -/
def ay : ℚ := 1

/-- Per-axis human share az (member az = 1.0). -/
def az : ℚ := 1

/-- The three per-axis weights (ax, ay, az) collected as a vector. -/
def fusionWeights : Fin 3 → ℚ := ![ax, ay, az]

/-! Section: SafetyLimiter: within_limits (real_controller.cpp lines 289-294)

The C++ loop returns false as soon as one joint value is above its upper
or below its lower limit, and true after the loop; this early-exit scan
is List.all over the seven indices. -/

/-- Embedding of within_limits: true unless some joint value exceeds its
upper limit or falls below its lower limit. -/
def within_limits (vals : Fin n_joints → ℚ) : Bool :=
  (List.finRange n_joints).all fun i =>
    !(decide (vals i > upper_joint_limits i) || decide (vals i < lower_joint_limits i))

/-! SmoothingRamp (real_controller.cpp lines 84-87 and 147-148)

Per tick the code runs: if (count < max_count) count++;
then w = (double)count / max_count. -/

/-- One advance of the smoothing counter. -/
def advanceCount (c : ℕ) : ℕ := if c < max_count then c + 1 else c

/-- The smoothing weight computed from a counter value. -/
def rampWeight (c : ℕ) : ℚ := (c : ℚ) / (max_count : ℚ)

/-- Counter value after k ticks, starting from the initial count = 0. -/
def countAfter (k : ℕ) : ℕ := advanceCount^[k] 0

/-! CartesianFusion (real_controller.cpp lines 139-141) -/

/-- Embedding of the per-axis convex combination of the human and robot
offsets, shifted by the task-space origin. -/
def fuse (origin human robot weights : Fin 3 → ℚ) : Fin 3 → ℚ :=
  fun a => origin a + weights a * human a + (1 - weights a) * robot a

/-! Section: Trajectory setpoint delay (real_controller.cpp line 162)

The code writes time_from_start.nanosec =
(int)(1000 / control_freq) * latency * 1000000, where 1000 / control_freq
is C++ integer division. -/

/-- The delay written into every published setpoint, in nanoseconds. -/
def delay_nanosec : ℚ := (((1000 : ℤ) / (control_freq : ℤ) : ℤ) : ℚ) * latency * 1000000

/-! Section: AutonomousTrajectorySource: get_robot_control
(real_controller.cpp lines 227-235)

The loop runs i = 0 .. n_joints - 1 and writes vals.at(i) = t; the
at-accessor raises std::out_of_range when i is not below the length, in
which case the writes already done remain in place. -/

/-- One pass of the get_robot_control loop over the listed indices; the
error value carries the vector as it stands when at throws. -/
def grcGo (t : ℚ) (vals : List ℚ) : List ℕ → Except (List ℚ) (List ℚ)
  | [] => .ok vals
  | i :: rest => if i < vals.length then grcGo t (vals.set i t) rest else .error vals

/-- Embedding of get_robot_control: write t into indices 0 .. n_joints - 1
of vals, propagating the out-of-range exception. -/
def get_robot_control (t : ℚ) (vals : List ℚ) : Except (List ℚ) (List ℚ) :=
  grcGo t vals (List.range n_joints)

/-! Section: TeleopFusionLoop: RealController state and the per-tick body
(real_controller.cpp lines 63-174)

The mutable members of the node are collected in a record; the IK solve
(an external iterative KDL solver) enters as a function parameter giving
the joint vector it returns for a target position and seed.  One call of
controller_publisher maps the state to a new state plus the optional
published message; crashed records an escaped exception, and
shutdown_requested records a call of rclcpp shutdown.  The C++ code has
no return after that shutdown call, so the tick still goes on to publish;
the embedding reproduces that fall-through. -/

/-- Mutable members of the RealController node together with the global
tcp_pos vector. -/
structure TickState where
  origin : Fin 3 → ℚ
  human_offset : Fin 3 → ℚ
  robot_offset : List ℚ
  curr_joint_vals : Fin n_joints → ℚ
  ik_joint_vals : Fin n_joints → ℚ
  message_joint_vals : Fin n_joints → ℚ
  tcp_pos : Fin 3 → ℚ
  control : Bool
  count : ℕ
  w : ℚ

/-- A published JointTrajectory message: one point holding the seven
positions and the time_from_start delay in nanoseconds. -/
structure PublishedMsg where
  positions : Fin n_joints → ℚ
  delay : ℚ
deriving DecidableEq

/-- Result of one controller_publisher call. -/
structure TickResult where
  state : TickState
  published : Option PublishedMsg
  shutdown_requested : Bool
  crashed : Bool

/-- Embedding of RealController controller_publisher.  The ik parameter
abstracts compute_ik (target position, seed joints to solution joints). -/
def controller_publisher (ik : (Fin 3 → ℚ) → (Fin n_joints → ℚ) → (Fin n_joints → ℚ))
    (s : TickState) : TickResult :=
  if s.control = true then
    match get_robot_control ((s.count : ℚ) / (control_freq : ℚ)) s.robot_offset with
    | .error partialVals =>
        -- the std::out_of_range exception escapes the tick
        ⟨{ s with robot_offset := partialVals }, none, false, true⟩
    | .ok ro =>
        -- lines 139-141; in this branch ro has length n_joints ≥ 3,
        -- so the three at-reads of robot_offset cannot throw
        let tcp : Fin 3 → ℚ := fuse s.origin s.human_offset (fun a => ro.getD a 0) fusionWeights
        let ikv := ik tcp s.curr_joint_vals
        let count2 := advanceCount s.count
        let w2 := rampWeight count2
        let mjv : Fin n_joints → ℚ := fun i =>
          w2 * ikv i + (1 - w2) * s.curr_joint_vals i
        ⟨{ s with
            robot_offset := ro
            tcp_pos := tcp
            ik_joint_vals := ikv
            count := count2
            w := w2
            message_joint_vals := mjv },
         some ⟨mjv, delay_nanosec⟩,
         !(within_limits mjv), false⟩
  else ⟨s, none, false, false⟩

/-- Embedding of RealController joint_states_callback
(real_controller.cpp lines 189-200): copy the first n_joints entries of
the received position array into curr_joint_vals, then set the control
flag; a too-short array raises out_of_range after the partial writes,
before the flag update. -/
def joint_states_callback (s : TickState) (data : List ℚ) : Except TickState TickState :=
  if n_joints ≤ data.length then
    .ok { s with
      curr_joint_vals := fun i => data.getD i 0
      control := if s.control = false then true else s.control }
  else
    .error { s with
      curr_joint_vals := fun i =>
        if (i : ℕ) < data.length then data.getD i 0 else s.curr_joint_vals i }

/-- The node state left behind by a callback whether or not it threw. -/
def exceptState : Except TickState TickState → TickState
  | .ok s => s
  | .error s => s

/-- Embedding of RealController falcon_pos_callback
(real_controller.cpp lines 203-209): rescale the haptic reading from
centimeters and store it as the human offset. -/
def falcon_pos_callback (s : TickState) (x y z : ℚ) : TickState :=
  { s with human_offset :=
      ![x / 100 * mapping_ratio, y / 100 * mapping_ratio, z / 100 * mapping_ratio] }

/-! Section: IKService: compute_ik orientation capture
(real_controller.cpp lines 42-43 and 240-284)

The KDL forward and inverse solvers are external; they enter as function
parameters fkRot (joints to end-effector rotation) and cartToJnt (seed
joints, goal orientation, goal position to solution joints).  The globals
orientation and got_orientation form the IkState record, initialised to
got_orientation = false at program start.  compute_ik returns the solved
joints, the orientation used in the goal pose, and the updated globals. -/

/-- The global orientation-capture state of real_controller.cpp. -/
structure IkState (O : Type) where
  got_orientation : Bool
  orientation : O
deriving DecidableEq

/-- Embedding of compute_ik: on the first call the end-effector rotation
of the seed joints is stored and the flag set; the goal pose is always
built from the stored orientation and the desired position. -/
def compute_ik {O : Type} (fkRot : (Fin n_joints → ℚ) → O)
    (cartToJnt : (Fin n_joints → ℚ) → O → (Fin 3 → ℚ) → (Fin n_joints → ℚ))
    (st : IkState O) (desired_tcp_pos : Fin 3 → ℚ) (curr_vals : Fin n_joints → ℚ) :
    (Fin n_joints → ℚ) × O × IkState O :=
  let st2 := if st.got_orientation then st else ⟨true, fkRot curr_vals⟩
  (cartToJnt curr_vals st2.orientation desired_tcp_pos, st2.orientation, st2)

/-- A session of successive compute_ik calls: fold the state through a
list of (target position, seed joints) pairs, collecting the orientation
each call used for its goal pose. -/
def ikRun {O : Type} (fkRot : (Fin n_joints → ℚ) → O)
    (cartToJnt : (Fin n_joints → ℚ) → O → (Fin 3 → ℚ) → (Fin n_joints → ℚ)) :
    IkState O → List ((Fin 3 → ℚ) × (Fin n_joints → ℚ)) → IkState O × List O
  | st, [] => (st, [])
  | st, (tp, cv) :: rest =>
      let r := compute_ik fkRot cartToJnt st tp cv
      let rec2 := ikRun fkRot cartToJnt r.2.2 rest
      (rec2.1, r.2.1 :: rec2.2)

/-! Section: TorqueControlLoop: MyController update
(my_controller.cpp lines 99-117)

The Franka section of MyController update reads the measured state q and
dq, queries the motion generator for (q_desired, finished), and either
computes the PD torque from the freshly filtered velocity or writes zero
torques.  The wait-set poll section only logs and mutates nothing that
the torque computation reads, so the embedding covers the controller
section; state and motion-generator outputs enter as arguments. -/

/-- The filter coefficient kAlpha = 0.99 of my_controller.cpp line 105. -/
def kAlpha : ℚ := 0.99

/-- Embedding of the dq_filtered update of my_controller.cpp line 106. -/
def filterUpdate (prev meas : Fin n_joints → ℚ) : Fin n_joints → ℚ :=
  fun i => (1 - kAlpha) * prev i + kAlpha * meas i

/-- Embedding of the Franka controller section of MyController update:
from gains, measured state, previous filtered velocity and the motion
generator output, produce the new filtered velocity and the torques
written to the seven command interfaces. -/
def myControllerUpdate (k_gains d_gains q dq dq_filtered q_desired : Fin n_joints → ℚ)
    (finished : Bool) : (Fin n_joints → ℚ) × (Fin n_joints → ℚ) :=
  if finished then
    (dq_filtered, fun _ => 0)
  else
    let dqf2 := filterUpdate dq_filtered dq
    (dqf2, fun i => k_gains i * (q_desired i - q i) + d_gains i * (-(dqf2 i)))

/-! Section: concrete node states and solver stand-ins used to evaluate
the embedding at specific inputs. -/

/-- An IK stand-in answering the constant joint vector 3 for every query;
3 rad exceeds every upper joint limit of the arm. -/
def ikConst3 : (Fin 3 → ℚ) → (Fin n_joints → ℚ) → Fin n_joints → ℚ := fun _ _ _ => 3

/-- An IK stand-in answering the zero joint vector for every query. -/
def ikConst0 : (Fin 3 → ℚ) → (Fin n_joints → ℚ) → Fin n_joints → ℚ := fun _ _ _ => 0

/-- A node state past the smoothing ramp (count at the ceiling) whose
robot_offset holds seven entries, so the tick runs to completion. -/
def rampedState : TickState :=
  ⟨fun _ => 0, fun _ => 0, [0, 0, 0, 0, 0, 0, 0], fun _ => 0, fun _ => 0,
   fun _ => 0, fun _ => 0, true, max_count, 1⟩

/-- The node state as initialised in real_controller.cpp (robot_offset of
length 3), after the first joint-state message set the control flag. -/
def initialActiveState : TickState :=
  ⟨![0.4559, 0, 0.3346], fun _ => 0, [0, 0, 0], fun _ => 0, fun _ => 0,
   fun _ => 0, ![0.3069, 0, 0.4853], true, 0, 0⟩

/-- A fresh active node state (count 0) with a seven-entry robot_offset. -/
def freshLongState : TickState :=
  ⟨fun _ => 0, fun _ => 0, [0, 0, 0, 0, 0, 0, 0], fun _ => 0, fun _ => 0,
   fun _ => 0, fun _ => 0, true, 0, 0⟩

/-- The message the tick from freshLongState under ikConst0 publishes. -/
def freshLongMsg : PublishedMsg := ⟨fun _ => 0, 100 * 1000000⟩


/-! Section: theorems settling the claims. -/

/-- The counter after k ticks is the minimum of k and max_count. -/
theorem countAfter_eq (k : ℕ) : countAfter k = min k max_count := by
  induction k with
  | zero => simp [countAfter]
  | succ n ih =>
      have h : countAfter (n + 1) = advanceCount (countAfter n) := by
        simp [countAfter, Function.iterate_succ_apply']
      rw [h, ih, advanceCount]
      unfold max_count control_freq
      split <;> omega

/-- Characterisation of within_limits as a bounds check on every joint. -/
theorem within_limits_true_iff (vals : Fin n_joints → ℚ) :
    within_limits vals = true ↔
      ∀ i : Fin n_joints,
        lower_joint_limits i ≤ vals i ∧ vals i ≤ upper_joint_limits i := by
  simp only [within_limits, List.all_eq_true, List.mem_finRange, true_implies,
    Bool.not_eq_true', Bool.or_eq_false_iff, decide_eq_false_iff_not, not_lt]
  exact forall_congr' fun i => and_comm

/-- Writing the autonomous ramp value into a seven-entry vector succeeds
and fills all seven slots; no rational value is forced, so this is a
pure control-flow fact. -/
theorem grc_ok7 (t a0 a1 a2 a3 a4 a5 a6 : ℚ) :
    get_robot_control t [a0, a1, a2, a3, a4, a5, a6] = .ok [t, t, t, t, t, t, t] := rfl

/-- On a successful get_robot_control pass, the tick publishes the
blended vector with the constant delay, requests shutdown exactly when
the limit check fails, and blends with the advanced ramp weight. -/
theorem controller_publisher_ok_cases
    (ik : (Fin 3 → ℚ) → (Fin n_joints → ℚ) → (Fin n_joints → ℚ))
    (s : TickState) (ro : List ℚ) (hc : s.control = true)
    (hro : get_robot_control ((s.count : ℚ) / (control_freq : ℚ)) s.robot_offset = .ok ro) :
    (controller_publisher ik s).published =
      some ⟨(controller_publisher ik s).state.message_joint_vals, delay_nanosec⟩ ∧
    (controller_publisher ik s).shutdown_requested =
      !(within_limits ((controller_publisher ik s).state.message_joint_vals)) ∧
    (controller_publisher ik s).state.message_joint_vals = fun i =>
      rampWeight (advanceCount s.count) *
          ik (fuse s.origin s.human_offset (fun a => ro.getD a 0) fusionWeights)
            s.curr_joint_vals i
        + (1 - rampWeight (advanceCount s.count)) * s.curr_joint_vals i := by
  unfold controller_publisher
  rw [if_pos hc, hro]
  exact ⟨rfl, rfl, rfl⟩

/-- Claim C3: within_limits returns true if and only if every joint value
lies in the closed interval between its lower and upper limit. -/
theorem within_limits_iff (vals : Fin n_joints → ℚ) :
    within_limits vals = true ↔
      ∀ i : Fin n_joints,
        lower_joint_limits i ≤ vals i ∧ vals i ≤ upper_joint_limits i :=
  within_limits_true_iff vals

/-- Claim C1 (code evaluation): on a tick whose blended joint vector
violates the limits, the code requests shutdown and nevertheless
publishes the offending setpoint, because controller_publisher has no
return after the shutdown call.  Evaluated at a ramped state with an IK
answer of 3 rad on every joint, which exceeds every upper limit. -/
theorem publish_despite_violation :
    within_limits ((controller_publisher ikConst3 rampedState).state.message_joint_vals)
        = false ∧
    (controller_publisher ikConst3 rampedState).shutdown_requested = true ∧
    (controller_publisher ikConst3 rampedState).published =
      some ⟨(controller_publisher ikConst3 rampedState).state.message_joint_vals,
            delay_nanosec⟩ := by
  obtain ⟨hpub, hsd, hmjv⟩ :=
    controller_publisher_ok_cases ikConst3 rampedState
      [(rampedState.count : ℚ) / (control_freq : ℚ), (rampedState.count : ℚ) / (control_freq : ℚ),
       (rampedState.count : ℚ) / (control_freq : ℚ), (rampedState.count : ℚ) / (control_freq : ℚ),
       (rampedState.count : ℚ) / (control_freq : ℚ), (rampedState.count : ℚ) / (control_freq : ℚ),
       (rampedState.count : ℚ) / (control_freq : ℚ)]
      rfl (grc_ok7 _ 0 0 0 0 0 0 0)
  have h3 : (controller_publisher ikConst3 rampedState).state.message_joint_vals
      = fun _ => (3 : ℚ) := by
    rw [hmjv]
    funext i
    simp only [ikConst3, rampedState]
    norm_num [rampWeight, advanceCount, max_count, control_freq]
  have hfalse : within_limits (fun _ => (3 : ℚ)) = false := by
    rw [Bool.eq_false_iff]
    intro htrue
    have h0 := (within_limits_true_iff _).1 htrue ⟨0, by norm_num [n_joints]⟩
    simp only [upper_joint_limits, lower_joint_limits, Fin.mk_zero,
      Matrix.cons_val_zero] at h0
    norm_num at h0
  refine ⟨by rw [h3]; exact hfalse, by rw [hsd, h3, hfalse]; rfl, hpub⟩

/-- Claim C2 (code evaluation): get_robot_control writes the ramp value
into the three entries of the Cartesian offset vector and then raises
out_of_range at index 3, because its loop bound is n_joints = 7; hence
the first active tick from the initial node state crashes and publishes
nothing, with the three-entry offset vector left in place. -/
theorem get_robot_control_out_of_range :
    get_robot_control (1 / 2) [0, 0, 0] = .error [1 / 2, 1 / 2, 1 / 2] ∧
    (controller_publisher ikConst0 initialActiveState).crashed = true ∧
    (controller_publisher ikConst0 initialActiveState).published = none ∧
    (controller_publisher ikConst0 initialActiveState).state.robot_offset.length = 3 :=
  ⟨rfl, rfl, rfl, rfl⟩

/-- Claim C4: the smoothing weight after k ticks is min(k, max_count) /
max_count; it is non-decreasing in the tick count, equals 1 once the
counter reaches max_count and never exceeds 1; with max_count = 200 the
weight is 1/2 after 100 ticks and 1 after 200 ticks. -/
theorem smoothing_ramp_spec :
    (∀ k : ℕ, rampWeight (countAfter k) = ((min k max_count : ℕ) : ℚ) / (max_count : ℚ)) ∧
    (∀ k1 k2 : ℕ, k1 ≤ k2 → rampWeight (countAfter k1) ≤ rampWeight (countAfter k2)) ∧
    rampWeight max_count = 1 ∧
    (∀ k : ℕ, rampWeight (countAfter k) ≤ 1) ∧
    rampWeight (countAfter 100) = 1 / 2 ∧
    rampWeight (countAfter 200) = 1 := by
  have hpos : (0 : ℚ) < (max_count : ℚ) := by norm_num [max_count, control_freq]
  refine ⟨fun k => by rw [countAfter_eq]; rfl, fun k1 k2 h => ?_,
    by norm_num [rampWeight, max_count, control_freq], fun k => ?_,
    by rw [countAfter_eq]; norm_num [rampWeight, max_count, control_freq],
    by rw [countAfter_eq]; norm_num [rampWeight, max_count, control_freq]⟩
  · unfold rampWeight
    rw [countAfter_eq, countAfter_eq]
    have hm : ((min k1 max_count : ℕ) : ℚ) ≤ ((min k2 max_count : ℕ) : ℚ) := by
      exact_mod_cast (by omega : min k1 max_count ≤ min k2 max_count)
    exact (div_le_div_iff_of_pos_right hpos).mpr hm
  · unfold rampWeight
    rw [countAfter_eq, div_le_one hpos]
    exact_mod_cast Nat.min_le_right k max_count

/-- Witness for the monotonicity hypothesis of smoothing_ramp_spec. -/
theorem smoothing_ramp_spec_witness :
    (3 : ℕ) ≤ 7 ∧ rampWeight (countAfter 3) ≤ rampWeight (countAfter 7) :=
  ⟨by decide, smoothing_ramp_spec.2.1 3 7 (by decide)⟩

/-- A compute_ik session that starts with the orientation already
captured never changes the stored state and uses the stored orientation
for every goal pose. -/
theorem ikRun_frozen {O : Type} (fkRot : (Fin n_joints → ℚ) → O)
    (cartToJnt : (Fin n_joints → ℚ) → O → (Fin 3 → ℚ) → (Fin n_joints → ℚ))
    (o : O) (calls : List ((Fin 3 → ℚ) × (Fin n_joints → ℚ))) :
    ikRun fkRot cartToJnt ⟨true, o⟩ calls = (⟨true, o⟩, calls.map fun _ => o) := by
  induction calls with
  | nil => rfl
  | cons hd tl ih => cases hd; simp [ikRun, compute_ik, ih]

/-- Claim C5: the first compute_ik call stores the forward-kinematics
orientation of its seed joints and sets the capture flag; every later
call of the session, whatever its target position and seed, builds its
goal pose from that same frozen orientation, and the flag stays true
through to the final state. -/
theorem compute_ik_freezes_orientation {O : Type}
    (fkRot : (Fin n_joints → ℚ) → O)
    (cartToJnt : (Fin n_joints → ℚ) → O → (Fin 3 → ℚ) → (Fin n_joints → ℚ))
    (o0 : O) (tp0 : Fin 3 → ℚ) (j0 : Fin n_joints → ℚ)
    (calls : List ((Fin 3 → ℚ) × (Fin n_joints → ℚ))) :
    ikRun fkRot cartToJnt ⟨false, o0⟩ ((tp0, j0) :: calls) =
      (⟨true, fkRot j0⟩, fkRot j0 :: calls.map fun _ => fkRot j0) := by
  simp [ikRun, compute_ik, ikRun_frozen]

/-- Claim C6: the fused Cartesian target is, per axis, the origin plus
the convex combination of the human and robot offsets; with the unit
weights (ax, ay, az) = (1, 1, 1) of the code it equals origin + human
on every axis, for every origin, human offset and robot offset. -/
theorem fuse_formula_unit_weights :
    (∀ origin human robot weights : Fin 3 → ℚ, ∀ a : Fin 3,
        fuse origin human robot weights a
          = origin a + weights a * human a + (1 - weights a) * robot a) ∧
    (∀ origin human robot : Fin 3 → ℚ,
        fuse origin human robot fusionWeights = fun a => origin a + human a) := by
  refine ⟨fun o h r wt a => rfl, fun o h r => ?_⟩
  funext a
  fin_cases a <;> simp [fuse, fusionWeights, ax, ay, az]

/-- Claim C7: on a not-finished torque tick the filtered velocity becomes
(1 - 0.99) * previous + 0.99 * measured and the torque of joint i is
kGain i * (desired i - measured i) + dGain i * (- filteredVelocity i);
when desired equals measured and the filtered velocity is zero the
torque is zero on every joint, for any gains. -/
theorem torque_law_spec :
    kAlpha = 99 / 100 ∧
    (∀ prev meas : Fin n_joints → ℚ,
        filterUpdate prev meas = fun i => (1 - kAlpha) * prev i + kAlpha * meas i) ∧
    (∀ k d q dq dqf qd : Fin n_joints → ℚ,
        myControllerUpdate k d q dq dqf qd false
          = (filterUpdate dqf dq,
             fun i => k i * (qd i - q i) + d i * (-(filterUpdate dqf dq i)))) ∧
    (∀ k d q dq dqf : Fin n_joints → ℚ,
        filterUpdate dqf dq = (fun _ => 0) →
          (myControllerUpdate k d q dq dqf q false).2 = fun _ => 0) := by
  refine ⟨by norm_num [kAlpha], fun prev meas => rfl, fun k d q dq dqf qd => rfl,
    fun k d q dq dqf h => ?_⟩
  funext i
  simp [myControllerUpdate, h]

/-- Witness for the zero-torque hypothesis of torque_law_spec. -/
theorem torque_law_spec_witness :
    filterUpdate (fun _ => 0) (fun _ => 0) = (fun _ : Fin n_joints => (0 : ℚ)) ∧
    (myControllerUpdate (fun _ => 1) (fun _ => 1) (fun _ => 0) (fun _ => 0)
        (fun _ => 0) (fun _ => 0) false).2 = fun _ : Fin n_joints => (0 : ℚ) := by
  have h : filterUpdate (fun _ => (0 : ℚ)) (fun _ => 0) = fun _ : Fin n_joints => (0 : ℚ) := by
    funext i
    simp [filterUpdate]
  exact ⟨h, torque_law_spec.2.2.2 _ _ _ _ _ h⟩

/-- Claim C8: when the motion generator reports finished, the torque
written to every command interface is zero, for all gains, measured
states and filtered velocities. -/
theorem finished_zero_torque (k d q dq dqf qd : Fin n_joints → ℚ) :
    (myControllerUpdate k d q dq dqf qd true).2 = fun _ => 0 := rfl

/-- Claim C9: the delay constant equals 100 milliseconds expressed in
nanoseconds, namely floor(1000 / 20) * 2.0 = 100 scaled by one million,
and every message a tick publishes carries exactly this delay. -/
theorem setpoint_delay_spec :
    delay_nanosec = 100 * 1000000 ∧
    (((1000 : ℤ) / (control_freq : ℤ) : ℤ) : ℚ) * latency = 100 ∧
    ∀ (ik : (Fin 3 → ℚ) → (Fin n_joints → ℚ) → (Fin n_joints → ℚ))
      (s : TickState) (m : PublishedMsg),
        (controller_publisher ik s).published = some m → m.delay = 100 * 1000000 := by
  have hq : ((1000 : ℤ) / (control_freq : ℤ)) = 50 := by decide
  have hd : delay_nanosec = 100 * 1000000 := by
    unfold delay_nanosec
    rw [hq]
    norm_num [latency]
  refine ⟨hd, by rw [hq]; norm_num [latency], fun ik s m h => ?_⟩
  unfold controller_publisher at h
  by_cases hc : s.control = true
  · rw [if_pos hc] at h
    cases hg : get_robot_control ((s.count : ℚ) / (control_freq : ℚ)) s.robot_offset with
    | error p => rw [hg] at h; exact absurd h (by simp)
    | ok ro =>
        rw [hg] at h
        simp only [Option.some.injEq] at h
        rw [← h]
        exact hd
  · rw [if_neg hc] at h
    exact absurd h (by simp)

/-- Witness for the publication hypothesis of setpoint_delay_spec. -/
theorem setpoint_delay_spec_witness :
    (controller_publisher ikConst0 freshLongState).published = some freshLongMsg ∧
    freshLongMsg.delay = 100 * 1000000 := by
  obtain ⟨hpub, hsd, hmjv⟩ :=
    controller_publisher_ok_cases ikConst0 freshLongState
      [(freshLongState.count : ℚ) / (control_freq : ℚ), (freshLongState.count : ℚ) / (control_freq : ℚ),
       (freshLongState.count : ℚ) / (control_freq : ℚ), (freshLongState.count : ℚ) / (control_freq : ℚ),
       (freshLongState.count : ℚ) / (control_freq : ℚ), (freshLongState.count : ℚ) / (control_freq : ℚ),
       (freshLongState.count : ℚ) / (control_freq : ℚ)]
      rfl (grc_ok7 _ 0 0 0 0 0 0 0)
  have hm0 : (controller_publisher ikConst0 freshLongState).state.message_joint_vals
      = fun _ => (0 : ℚ) := by
    rw [hmjv]
    funext i
    simp only [ikConst0, freshLongState]
    norm_num
  have hd : delay_nanosec = 100 * 1000000 := by
    have hq : ((1000 : ℤ) / (control_freq : ℤ)) = 50 := by decide
    unfold delay_nanosec
    rw [hq]
    norm_num [latency]
  have h1 : (controller_publisher ikConst0 freshLongState).published = some freshLongMsg := by
    rw [hpub, hm0]
    unfold freshLongMsg
    rw [hd]
  exact ⟨h1, setpoint_delay_spec.2.2 ikConst0 freshLongState freshLongMsg h1⟩

/-- Claim C10: a controller_publisher tick never writes curr_joint_vals
or human_offset, on any of its paths; curr_joint_vals is written by the
joint-state callback, which leaves human_offset alone, and human_offset
by the haptic callback, which leaves curr_joint_vals alone. -/
theorem tick_frame_condition
    (ik : (Fin 3 → ℚ) → (Fin n_joints → ℚ) → (Fin n_joints → ℚ)) (s : TickState)
    (data : List ℚ) (x y z : ℚ) :
    (controller_publisher ik s).state.curr_joint_vals = s.curr_joint_vals ∧
    (controller_publisher ik s).state.human_offset = s.human_offset ∧
    (exceptState (joint_states_callback s data)).human_offset = s.human_offset ∧
    (falcon_pos_callback s x y z).curr_joint_vals = s.curr_joint_vals := by
  refine ⟨?_, ?_, ?_, rfl⟩
  · unfold controller_publisher
    by_cases hc : s.control = true
    · rw [if_pos hc]
      cases hg : get_robot_control ((s.count : ℚ) / (control_freq : ℚ)) s.robot_offset <;>
        simp [hg]
    · rw [if_neg hc]
  · unfold controller_publisher
    by_cases hc : s.control = true
    · rw [if_pos hc]
      cases hg : get_robot_control ((s.count : ℚ) / (control_freq : ℚ)) s.robot_offset <;>
        simp [hg]
    · rw [if_neg hc]
  · unfold joint_states_callback
    split <;> rfl
